import Mathlib

/-!
Shallow embedding of the content-generation core of Solopreneur Sidekick:
the service module (safety gate, scene generator, usage-image synthesizer,
social-post generators, content orchestrator) and the append-only state
updates of the application layer.

Each network call to the generation service is modelled by its settled
outcome: a promise either fulfilled with a (parsed, schema-shaped) value or
rejected with a reason string; rejection covers both transport errors and
JSON parse errors thrown while handling the response. Functions that the
source writes as async control flow over those outcomes become total Lean
functions from outcomes to an Except value, where Except.error is a thrown
error and Except.ok a normal return.
-/

/-- Settled outcome of one awaited request: fulfilled with a value, or
rejected with a reason. -/
inductive Settled (α : Type) where
  | fulfilled (value : α)
  | rejected (reason : String)
deriving Repr, DecidableEq

/-- One part of a generation-model response candidate; only the presence of
inline image data (and its payload) is observed by the code. -/
structure RespPart where
  inlineData : Option String
deriving Repr, DecidableEq

/-- A fulfilled image-model response, reduced to what the code reads from it:
the parts list of the first candidate, or none when the optional chain
candidates-content is absent. -/
abbrev ImageResp := Option (List RespPart)

/-- The chain resp.candidates(0).content.parts.find with inlineData present,
then reading the data payload. -/
def findInline (resp : ImageResp) : Option String :=
  match resp with
  | none => none
  | some parts => ((parts.find? fun p => p.inlineData.isSome).bind fun p => p.inlineData)

/-- Image payload delivered by one settled image request: data of the first
inline part when the request fulfilled, none when it rejected or the
fulfilled response carried no inline image part. -/
def settledImageData : Settled ImageResp → Option String
  | .fulfilled resp => findInline resp
  | .rejected _ => none

/-- The startsWith scan underlying the includes check, over char lists. -/
def startsWithChars : List Char → List Char → Bool
  | _, [] => true
  | [], _ :: _ => false
  | c :: cs, p :: ps => c == p && startsWithChars cs ps

/-- Substring search over char lists: some suffix starts with the pattern. -/
def includesChars : List Char → List Char → Bool
  | [], pat => pat.isEmpty
  | c :: cs, pat => startsWithChars (c :: cs) pat || includesChars cs pat

/-- JS String.prototype.includes. -/
def stringIncludes (s pat : String) : Bool := includesChars s.data pat.data

/-- checkContentSafety: returns whether the moderation response text contains
the literal SAFE as a substring; any thrown error yields false. -/
def checkContentSafety (moderation : Settled String) : Bool :=
  match moderation with
  | .fulfilled text => stringIncludes text "SAFE"
  | .rejected _ => false

/-- A parsed JSON value, as far as the scene generator inspects one: a
string, an array, or anything else. -/
inductive JsValue where
  | str (s : String)
  | arr (elems : List JsValue)
  | other

/-- The typeof-string test used on each array element. -/
def JsValue.asString : JsValue → Option String
  | .str s => some s
  | _ => none

/-- Decimal digit characters of n, via fuel-structural long division. -/
def decimalAux : Nat → Nat → List Char
  | _, 0 => []
  | 0, _ + 1 => []
  | fuel + 1, n + 1 =>
    decimalAux fuel ((n + 1) / 10) ++ [Nat.digitChar ((n + 1) % 10)]

/-- Decimal rendering of a natural number, the template-string numeral. -/
def decimalString (n : Nat) : String := String.mk (decimalAux n n)

/-- The constant text of the fallback scene template, up to the numeral. -/
def fallbackSceneStem : String :=
  "A photorealistic scene of a Filipino or Asian person using the product in a modern setting #"

/-- The deterministic fallback scene list built when the scene request fails
or returns invalid data. -/
def fallbackScenes (count : Nat) : List String :=
  (List.range count).map fun i => fallbackSceneStem ++ decimalString (i + 1) ++ "."

/-- Outcome of the scene-description request as the catch block sees it:
transport rejection, a JSON.parse throw, or a successfully parsed value. -/
inductive SceneFetch where
  | transportError (reason : String)
  | parseError
  | parsed (value : JsValue)

/-- The validity test of the parsed scene payload: a non-empty array whose
elements are all strings. -/
def validSceneArray : JsValue → Bool
  | .arr elems => !elems.isEmpty && elems.all fun e => e.asString.isSome
  | _ => false

/-- _generateSceneDescriptions: on a valid parsed array, the first count
elements; on any failure (transport, parse, invalid shape, empty array),
the deterministic fallback list. -/
def _generateSceneDescriptions (fetch : SceneFetch) (count : Nat) : List String :=
  match fetch with
  | .transportError _ => fallbackScenes count
  | .parseError => fallbackScenes count
  | .parsed v =>
    match v with
    | .arr elems =>
      if !elems.isEmpty && elems.all (fun e => e.asString.isSome) then
        (elems.filterMap JsValue.asString).take count
      else fallbackScenes count
    | _ => fallbackScenes count

/-- Whether the scene request fell into the catch-or-invalid path. -/
def sceneFallbackTriggered (fetch : SceneFetch) : Bool :=
  match fetch with
  | .transportError _ => true
  | .parseError => true
  | .parsed v => !validSceneArray v

/-- The forEach-push loop over allSettled results: append, in order, the
inline image data of each fulfilled response that has one. -/
def collectImages (results : List (Settled ImageResp)) : List String :=
  results.foldl
    (fun acc r =>
      match settledImageData r with
      | some d => acc ++ [d]
      | none => acc)
    []

/-- The error thrown when a non-empty batch yields no image. -/
def noUsageImagesError : String :=
  "The AI failed to generate any usage example images. This could be due to content safety filters or a temporary issue. Please try a different product or image."

/-- _generateUsageImages: fan out one request per scene, wait for all
outcomes, keep the successful payloads in order, and throw only when a
non-empty scene list produced zero images. -/
def _generateUsageImages (usageApi : String → Settled ImageResp)
    (sceneDescriptions : List String) : Except String (List String) :=
  if 0 < sceneDescriptions.length ∧
      (collectImages (sceneDescriptions.map usageApi)).length = 0 then
    Except.error noUsageImagesError
  else
    Except.ok (collectImages (sceneDescriptions.map usageApi))

/-- A social media post object as parsed from the structured response; the
imageBase64 field is only ever added by later illustration code. -/
structure SocialPost where
  hook : String
  body : String
  hashtags : List String
  imagePrompt : Option String
  imageBase64 : Option String
deriving Repr, DecidableEq

/-- The wrapper object of the initial social post response. -/
structure SocialContent where
  socialMediaPost : List SocialPost
deriving Repr, DecidableEq

/-- JS truthiness of an optional string field: present and non-empty. -/
def jsTruthy (o : Option String) : Bool :=
  match o with
  | some s => !(s == "")
  | none => false

/-- The try-block around the best-effort illustration call: attach the image
payload when the settled call produced one, otherwise leave the post as is. -/
def attachIllustration (imgCall : Settled ImageResp) (post : SocialPost) : SocialPost :=
  match settledImageData imgCall with
  | some d => { post with imageBase64 := some d }
  | none => post

/-- _generateInitialSocialPost: propagate text-call rejection; when the
parsed content holds at least one post whose imagePrompt is truthy, attempt
the best-effort illustration, then delete imagePrompt from that post. -/
def _generateInitialSocialPost (textCall : Settled SocialContent)
    (imgCall : Settled ImageResp) : Except String SocialContent :=
  match textCall with
  | .rejected e => Except.error e
  | .fulfilled content =>
    match content.socialMediaPost with
    | [] => Except.ok content
    | post :: rest =>
      if jsTruthy post.imagePrompt then
        Except.ok { socialMediaPost := { attachIllustration imgCall post with imagePrompt := none } :: rest }
      else
        Except.ok content

/-- generateNewSocialMediaPost: propagate text-call rejection; illustrate
best-effort when imagePrompt is truthy; always delete imagePrompt. -/
def generateNewSocialMediaPost (textCall : Settled SocialPost)
    (imgCall : Settled ImageResp) : Except String SocialPost :=
  match textCall with
  | .rejected e => Except.error e
  | .fulfilled postContent =>
    let withImage :=
      if jsTruthy postContent.imagePrompt then attachIllustration imgCall postContent
      else postContent
    Except.ok { withImage with imagePrompt := none }

/-- generateTaglishSocialMediaPost: identical observable structure to
generateNewSocialMediaPost, differing only in the prompt text sent. -/
def generateTaglishSocialMediaPost (textCall : Settled SocialPost)
    (imgCall : Settled ImageResp) : Except String SocialPost :=
  match textCall with
  | .rejected e => Except.error e
  | .fulfilled postContent =>
    let withImage :=
      if jsTruthy postContent.imagePrompt then attachIllustration imgCall postContent
      else postContent
    Except.ok { withImage with imagePrompt := none }

/-- The nested description object of a product listing. -/
structure ProductDescription where
  hook : String
  features : List String
  cta : String
deriving Repr, DecidableEq

/-- The parsed product-listing response. -/
structure ListingContent where
  productTitle : String
  productDescription : ProductDescription
deriving Repr, DecidableEq

/-- The aggregate result object; a missing key of the JS object is none. -/
structure GeneratedContent where
  productTitle : Option String := none
  productDescription : Option ProductDescription := none
  socialMediaPost : Option (List SocialPost) := none
  productImageBase64 : Option String := none
  usageImagesBase64 : Option (List String) := none
deriving Repr, DecidableEq

/-- The Object.keys emptiness test on the aggregate result. -/
def GeneratedContent.noKeys (c : GeneratedContent) : Bool :=
  c.productTitle.isNone && c.productDescription.isNone && c.socialMediaPost.isNone &&
    c.productImageBase64.isNone && c.usageImagesBase64.isNone

/-- The three user-selected generation options. -/
structure GenOptions where
  productListing : Bool
  socialMedia : Bool
  images : Bool
deriving Repr, DecidableEq

/-- Settled outcomes of every external call one orchestration run can make:
the listing text call, the initial social text call, the best-effort social
illustration call, the studio main-image edit, the scene-description fetch,
and the per-scene usage-image calls. -/
structure Env where
  listing : Settled ListingContent
  socialText : Settled SocialContent
  socialImage : Settled ImageResp
  mainImage : Settled ImageResp
  sceneFetch : SceneFetch
  usageApi : String → Settled ImageResp

/-- The generic error thrown when the merged result has no key. -/
def noContentError : String := "No content was generated. Please check your selections."

/-- The error thrown when the required studio edit has no image data. -/
def editedImageError : String := "The AI failed to generate an edited product image."

/-- The listing text task of the text phase: when selected, its rejection
aborts and its parsed object contributes productTitle and
productDescription; when not selected it contributes nothing. -/
def listingPhase (env : Env) (opts : GenOptions) : Except String GeneratedContent :=
  if opts.productListing then
    match env.listing with
    | .rejected e => Except.error e
    | .fulfilled listing =>
      Except.ok { productTitle := some listing.productTitle,
                  productDescription := some listing.productDescription }
  else Except.ok {}

/-- Step 1 of the orchestrator: run the selected text tasks and merge their
objects into the result; any rejection aborts the whole call. -/
def textPhase (env : Env) (opts : GenOptions) : Except String GeneratedContent :=
  match listingPhase env opts with
  | .error e => Except.error e
  | .ok r1 =>
    if opts.socialMedia then
      match _generateInitialSocialPost env.socialText env.socialImage with
      | .error e => Except.error e
      | .ok content => Except.ok { r1 with socialMediaPost := some content.socialMediaPost }
    else Except.ok r1

/-- Merge of the image-phase outputs into the result object. -/
def withImages (result0 : GeneratedContent) (d : String)
    (usageImages : List String) : GeneratedContent :=
  { result0 with
    productImageBase64 := some d
    usageImagesBase64 := some usageImages }

/-- The final emptiness check of the orchestrator: an aggregate with no key
is rejected with the generic no-content error. -/
def finalize (result : GeneratedContent) : Except String GeneratedContent :=
  if result.noKeys then Except.error noContentError else Except.ok result

/-- generateProductContent: text phase, then (when images are selected) the
required studio edit together with scene generation feeding the usage-image
batch; merge populated fields and reject an aggregate with no key. -/
def generateProductContent (env : Env) (_productType : String)
    (opts : GenOptions) : Except String GeneratedContent :=
  match textPhase env opts with
  | .error e => Except.error e
  | .ok result0 =>
    if opts.images then
      match env.mainImage with
      | .rejected e => Except.error e
      | .fulfilled mainResp =>
        match _generateUsageImages env.usageApi (_generateSceneDescriptions env.sceneFetch 4) with
        | .error e => Except.error e
        | .ok usageImages =>
          match findInline mainResp with
          | none => Except.error editedImageError
          | some d => finalize (withImages result0 d usageImages)
    else
      finalize result0

/-- generateMoreUsageImages: fresh scenes (count 4) into the usage batch. -/
def generateMoreUsageImages (sceneFetch : SceneFetch)
    (usageApi : String → Settled ImageResp) : Except String (List String) :=
  _generateUsageImages usageApi (_generateSceneDescriptions sceneFetch 4)

/-- The successful state update of handleGenerateMoreImages: spread the
previous content, appending the new images to the existing list. -/
def handleGenerateMoreImagesUpdate (prev : GeneratedContent)
    (newImages : List String) : GeneratedContent :=
  { prev with usageImagesBase64 := some (prev.usageImagesBase64.getD [] ++ newImages) }

/-- The successful state update of handleGenerateNewSocialPost: spread the
previous content, appending the new post to the existing list. -/
def handleGenerateNewSocialPostUpdate (prev : GeneratedContent)
    (newPost : SocialPost) : GeneratedContent :=
  { prev with socialMediaPost := some (prev.socialMediaPost.getD [] ++ [newPost]) }

/-- The successful state update of handleGenerateTaglishPost: same append
shape as the new-post handler. -/
def handleGenerateTaglishPostUpdate (prev : GeneratedContent)
    (newPost : SocialPost) : GeneratedContent :=
  { prev with socialMediaPost := some (prev.socialMediaPost.getD [] ++ [newPost]) }

/-- A concrete schema-shaped social post with a truthy imagePrompt, used to
instantiate the social-post properties. -/
def samplePost : SocialPost :=
  { hook := "h", body := "b", hashtags := ["#a"], imagePrompt := some "a scene",
    imageBase64 := none }

/-- A concrete schema-shaped social post whose imagePrompt is the empty
string, i.e. present but falsy. -/
def emptyPromptPost : SocialPost :=
  { hook := "h", body := "b", hashtags := ["#a"], imagePrompt := some "",
    imageBase64 := none }

/-- A concrete parsed listing description. -/
def sampleDescription : ProductDescription :=
  { hook := "hk", features := ["f1", "f2", "f3"], cta := "buy now" }

/-- A concrete parsed listing response. -/
def sampleListing : ListingContent :=
  { productTitle := "T", productDescription := sampleDescription }

/-- A concrete environment: listing and social text succeed, the social
illustration rejects, the studio edit fulfills with no parts, the scene
fetch fails to parse, and every usage request fulfills with image data. -/
def sampleEnv : Env :=
  { listing := Settled.fulfilled sampleListing
    socialText := Settled.fulfilled { socialMediaPost := [samplePost] }
    socialImage := Settled.rejected "down"
    mainImage := Settled.fulfilled (some [])
    sceneFetch := SceneFetch.parseError
    usageApi := fun _ => Settled.fulfilled (some [{ inlineData := some "IMG" }]) }

/-- A concrete previous aggregate holding one usage image and one post. -/
def samplePrev : GeneratedContent :=
  { usageImagesBase64 := some ["A"]
    socialMediaPost := some [samplePost] }

/-! ## Supporting lemmas -/

theorem collectImages_go (results : List (Settled ImageResp)) :
    ∀ acc : List String,
      results.foldl
        (fun acc r =>
          match settledImageData r with
          | some d => acc ++ [d]
          | none => acc) acc
      = acc ++ results.filterMap settledImageData := by
  induction results with
  | nil => intro acc; simp
  | cons r rs ih =>
    intro acc
    cases h : settledImageData r with
    | none => simp [List.foldl_cons, h, ih, List.filterMap_cons]
    | some d => simp [List.foldl_cons, h, ih, List.filterMap_cons]

theorem collectImages_eq (results : List (Settled ImageResp)) :
    collectImages results = results.filterMap settledImageData := by
  simpa [collectImages] using collectImages_go results []

theorem collectImages_length_le (results : List (Settled ImageResp)) :
    (collectImages results).length ≤ results.length := by
  rw [collectImages_eq]
  exact List.length_filterMap_le settledImageData results

theorem decimalAux_eq (fuel : Nat) :
    ∀ n : Nat, n ≤ fuel → decimalAux fuel n = ((Nat.digits 10 n).map Nat.digitChar).reverse := by
  induction fuel with
  | zero =>
    intro n hn
    have h0 : n = 0 := Nat.le_zero.mp hn
    subst h0
    simp [decimalAux]
  | succ f ih =>
    intro n hn
    cases n with
    | zero => simp [decimalAux]
    | succ m =>
      have hdiv : (m + 1) / 10 ≤ f := by
        have h1 : (m + 1) / 10 < m + 1 := Nat.div_lt_self (Nat.succ_pos m) (by norm_num)
        omega
      rw [decimalAux, ih ((m + 1) / 10) hdiv,
        Nat.digits_def' (by norm_num : (1 : Nat) < 10) (Nat.succ_pos m)]
      simp

theorem digitChar_inj_lt : ∀ a, a < 10 → ∀ b, b < 10 →
    Nat.digitChar a = Nat.digitChar b → a = b := by decide

theorem map_digitChar_inj (xs : List Nat) :
    ∀ ys : List Nat, (∀ x ∈ xs, x < 10) → (∀ y ∈ ys, y < 10) →
      xs.map Nat.digitChar = ys.map Nat.digitChar → xs = ys := by
  induction xs with
  | nil =>
    intro ys _ _ h
    cases ys with
    | nil => rfl
    | cons y ys => simp at h
  | cons x xs ih =>
    intro ys hx hy h
    cases ys with
    | nil => simp at h
    | cons y ys =>
      simp only [List.map_cons, List.cons.injEq] at h
      have h1 : x = y :=
        digitChar_inj_lt x (hx x (by simp)) y (hy y (by simp)) h.1
      have h2 : xs = ys :=
        ih ys (fun a ha => hx a (by simp [ha])) (fun a ha => hy a (by simp [ha])) h.2
      simp [h1, h2]

theorem decimalString_inj : Function.Injective decimalString := by
  intro a b h
  have hd : decimalAux a a = decimalAux b b := congrArg String.data h
  rw [decimalAux_eq a a (le_refl a), decimalAux_eq b b (le_refl b)] at hd
  have hrev : (Nat.digits 10 a).map Nat.digitChar = (Nat.digits 10 b).map Nat.digitChar :=
    List.reverse_injective hd
  have hdig : Nat.digits 10 a = Nat.digits 10 b :=
    map_digitChar_inj _ _
      (fun x hx => Nat.digits_lt_base (by norm_num) hx)
      (fun y hy => Nat.digits_lt_base (by norm_num) hy) hrev
  calc a = Nat.ofDigits 10 (Nat.digits 10 a) := (Nat.ofDigits_digits 10 a).symm
    _ = Nat.ofDigits 10 (Nat.digits 10 b) := by rw [hdig]
    _ = b := Nat.ofDigits_digits 10 b

theorem fallbackScene_inj :
    Function.Injective (fun i => fallbackSceneStem ++ decimalString (i + 1) ++ ".") := by
  intro i j h
  simp only at h
  have hd := congrArg String.data h
  simp only [String.data_append, List.append_assoc] at hd
  have h1 := List.append_cancel_left hd
  have h2 := List.append_cancel_right h1
  have h3 : decimalString (i + 1) = decimalString (j + 1) := congrArg String.mk h2
  have h4 := decimalString_inj h3
  omega

theorem fallbackScenes_length (count : Nat) : (fallbackScenes count).length = count := by
  simp [fallbackScenes]

theorem fallbackScenes_nodup (count : Nat) : (fallbackScenes count).Nodup :=
  (List.nodup_range count).map fallbackScene_inj

theorem scene_fallback_of_triggered (fetch : SceneFetch) (count : Nat)
    (h : sceneFallbackTriggered fetch = true) :
    _generateSceneDescriptions fetch count = fallbackScenes count := by
  cases fetch with
  | transportError r => rfl
  | parseError => rfl
  | parsed v =>
    cases v with
    | str s => rfl
    | other => rfl
    | arr elems =>
      simp only [sceneFallbackTriggered, validSceneArray, Bool.not_eq_true'] at h
      simp [_generateSceneDescriptions, h]

/-! ## Claims -/

/-- C1 (code bug): the safety gate tests substring containment of SAFE, so
the moderation answer UNSAFE, which is not the literal SAFE and which the
specified gate must reject, nevertheless passes the gate; the behaviours on
the literal SAFE (with or without surrounding whitespace), on an empty or
lowercase body, and on a rejected request match the claim. -/
theorem checkContentSafety_unsafe_passes :
    checkContentSafety (Settled.fulfilled "UNSAFE") = true ∧
    ("UNSAFE" : String) ≠ "SAFE" ∧
    checkContentSafety (Settled.fulfilled "SAFE") = true ∧
    checkContentSafety (Settled.fulfilled " SAFE ") = true ∧
    checkContentSafety (Settled.fulfilled "") = false ∧
    checkContentSafety (Settled.fulfilled "safe") = false ∧
    checkContentSafety (Settled.rejected "network down") = false := by
  refine ⟨?_, ?_, ?_, ?_, ?_, ?_, ?_⟩ <;> decide

/-- C6: the scene generator is a total function (no throw) that always
returns at most count strings; on a valid non-empty string array it returns
the first count elements (hence a shorter valid array is returned as is);
on transport error, parse error, a non-array or non-string-element value, or
an empty array it returns the deterministic fallback list, which has exactly
count pairwise-distinct entries differing in their numeral suffix. -/
theorem sceneDescriptions_contract (fetch : SceneFetch) (count : Nat) :
    (∀ ss : List String,
       fetch = SceneFetch.parsed (JsValue.arr (ss.map JsValue.str)) → 0 < ss.length →
       _generateSceneDescriptions fetch count = ss.take count) ∧
    (sceneFallbackTriggered fetch = true →
       _generateSceneDescriptions fetch count = fallbackScenes count ∧
       (_generateSceneDescriptions fetch count).length = count ∧
       (_generateSceneDescriptions fetch count).Nodup) ∧
    (_generateSceneDescriptions fetch count).length ≤ count := by
  refine ⟨?_, ?_, ?_⟩
  · rintro ss rfl hlen
    have hall : (ss.map JsValue.str).all (fun e => e.asString.isSome) = true := by
      simp [List.all_eq_true, JsValue.asString]
    have hne : (ss.map JsValue.str).isEmpty = false := by
      cases ss with
      | nil => simp at hlen
      | cons a l => simp [List.isEmpty]
    have hmap : (ss.map JsValue.str).filterMap JsValue.asString = ss := by
      rw [List.filterMap_map]
      have hcomp : (JsValue.asString ∘ JsValue.str) = some := rfl
      rw [hcomp, List.filterMap_some]
    simp [_generateSceneDescriptions, hall, hne, hmap]
  · intro h
    have he := scene_fallback_of_triggered fetch count h
    exact ⟨he, by rw [he, fallbackScenes_length], he ▸ fallbackScenes_nodup count⟩
  · by_cases h : sceneFallbackTriggered fetch = true
    · rw [scene_fallback_of_triggered fetch count h, fallbackScenes_length]
    · have h' : sceneFallbackTriggered fetch = false := by
        cases hb : sceneFallbackTriggered fetch
        · rfl
        · exact absurd hb h
      cases fetch with
      | transportError r => simp [sceneFallbackTriggered] at h'
      | parseError => simp [sceneFallbackTriggered] at h'
      | parsed v =>
        cases v with
        | str s => simp [sceneFallbackTriggered, validSceneArray] at h'
        | other => simp [sceneFallbackTriggered, validSceneArray] at h'
        | arr elems =>
          simp only [sceneFallbackTriggered, Bool.not_eq_false'] at h'
          have hc : (!elems.isEmpty && elems.all fun e => e.asString.isSome) = true := h'
          simp only [_generateSceneDescriptions, hc, if_true, List.length_take]
          omega

/-- C6 witness: a transport failure with count 4 yields the fallback list of
exactly 4 distinct strings. -/
theorem sceneDescriptions_contract_witness :
    _generateSceneDescriptions (SceneFetch.transportError "network down") 4 = fallbackScenes 4 ∧
    (_generateSceneDescriptions (SceneFetch.transportError "network down") 4).length = 4 ∧
    (_generateSceneDescriptions (SceneFetch.transportError "network down") 4).Nodup :=
  (sceneDescriptions_contract (SceneFetch.transportError "network down") 4).2.1 rfl

/-- C2: the usage-image batch returns at most one image per scene, returns an
empty sequence without error for an empty scene list, returns the collected
successes (failures silently omitted) whenever at least one image was
produced, and throws, with exactly the no-images-produced message, precisely
when the scene list is non-empty and zero images were produced. -/
theorem usageImages_failure_policy (usageApi : String → Settled ImageResp)
    (scenes : List String) :
    (∀ r, _generateUsageImages usageApi scenes = Except.ok r → r.length ≤ scenes.length) ∧
    (scenes = [] → _generateUsageImages usageApi scenes = Except.ok []) ∧
    (collectImages (scenes.map usageApi) ≠ [] →
       _generateUsageImages usageApi scenes = Except.ok (collectImages (scenes.map usageApi))) ∧
    ((∃ e, _generateUsageImages usageApi scenes = Except.error e) ↔
       scenes ≠ [] ∧ collectImages (scenes.map usageApi) = []) ∧
    (∀ e, _generateUsageImages usageApi scenes = Except.error e → e = noUsageImagesError) := by
  have hlen : (collectImages (scenes.map usageApi)).length ≤ scenes.length := by
    have := collectImages_length_le (scenes.map usageApi)
    simpa using this
  refine ⟨?_, ?_, ?_, ?_, ?_⟩
  · intro r hr
    unfold _generateUsageImages at hr
    split at hr
    · exact absurd hr (by simp)
    · cases hr
      exact hlen
  · intro h
    subst h
    rfl
  · intro h
    unfold _generateUsageImages
    split
    · rename_i hcond
      exact absurd (List.length_eq_zero.mp hcond.2) h
    · rfl
  · constructor
    · rintro ⟨e, he⟩
      unfold _generateUsageImages at he
      split at he
      · rename_i hcond
        refine ⟨?_, List.length_eq_zero.mp hcond.2⟩
        intro hnil
        rw [hnil] at hcond
        simp at hcond
      · exact absurd he (by simp)
    · rintro ⟨hne, hz⟩
      refine ⟨noUsageImagesError, ?_⟩
      unfold _generateUsageImages
      split
      · rfl
      · rename_i hcond
        rw [not_and_or] at hcond
        rcases hcond with hc | hc
        · cases scenes with
          | nil => exact absurd rfl hne
          | cons a l => simp at hc
        · rw [hz] at hc
          simp at hc
  · intro e he
    unfold _generateUsageImages at he
    split at he
    · cases he
      rfl
    · exact absurd he (by simp)

/-- C2 witness: the empty scene list yields the empty sequence, and a
two-scene batch where every request rejects throws the no-images error. -/
theorem usageImages_failure_policy_witness :
    _generateUsageImages (fun _ => Settled.rejected "rejected") [] = Except.ok [] ∧
    _generateUsageImages (fun _ => Settled.rejected "rejected") ["s1", "s2"] =
      Except.error noUsageImagesError :=
  ⟨(usageImages_failure_policy (fun _ => Settled.rejected "rejected") []).2.1 rfl,
    by
      have h := ((usageImages_failure_policy (fun _ => Settled.rejected "rejected")
        ["s1", "s2"]).2.2.2.1).mpr ⟨by simp, rfl⟩
      obtain ⟨e, he⟩ := h
      have hmsg := (usageImages_failure_policy (fun _ => Settled.rejected "rejected")
        ["s1", "s2"]).2.2.2.2 e he
      rw [hmsg] at he
      exact he⟩

/-- C9: the usage-image synthesizer is order preserving: a successful result
is exactly the sequence of per-scene image payloads, taken in scene order,
with the sceneless outcomes dropped. -/
theorem usageImages_order_preserving (usageApi : String → Settled ImageResp)
    (scenes : List String) (r : List String) :
    _generateUsageImages usageApi scenes = Except.ok r →
    r = (scenes.map fun s => settledImageData (usageApi s)).reduceOption := by
  intro hr
  unfold _generateUsageImages at hr
  have hcoll : collectImages (scenes.map usageApi)
      = (scenes.map fun s => settledImageData (usageApi s)).reduceOption := by
    rw [collectImages_eq, List.filterMap_map]
    simp [List.reduceOption, List.filterMap_map]
    rfl
  split at hr
  · exact absurd hr (by simp)
  · cases hr
    exact hcoll

/-- C9 witness: with the first and third of three scenes succeeding, the
result is their payloads in scene order. -/
theorem usageImages_order_preserving_witness :
    (["A", "C"] : List String) =
      ((["sceneA", "sceneB", "sceneC"].map fun s =>
        settledImageData
          ((fun s => if s == "sceneB" then Settled.rejected "blocked"
            else if s == "sceneA" then Settled.fulfilled (some [{ inlineData := some "A" }])
            else Settled.fulfilled (some [{ inlineData := some "C" }])) s)).reduceOption) :=
  usageImages_order_preserving
    (fun s => if s == "sceneB" then Settled.rejected "blocked"
      else if s == "sceneA" then Settled.fulfilled (some [{ inlineData := some "A" }])
      else Settled.fulfilled (some [{ inlineData := some "C" }]))
    ["sceneA", "sceneB", "sceneC"] ["A", "C"] rfl

/-- C7: when the post requested an illustration (truthy imagePrompt) and the
illustration call rejected or returned no image data, both the initial and
the new social post paths keep the post with hook, body and hashtags intact
and leave imageBase64 exactly as parsed (so absent when absent from the
response); imageBase64 is set precisely from the payload when the
illustration response contains image data. -/
theorem social_post_best_effort_image (p : SocialPost) (rest : List SocialPost)
    (imgCall : Settled ImageResp) :
    (jsTruthy p.imagePrompt = true → settledImageData imgCall = none →
       _generateInitialSocialPost (Settled.fulfilled ⟨p :: rest⟩) imgCall =
         Except.ok ⟨{ p with imagePrompt := none } :: rest⟩ ∧
       generateNewSocialMediaPost (Settled.fulfilled p) imgCall =
         Except.ok { p with imagePrompt := none } ∧
       (p.imageBase64 = none → ({ p with imagePrompt := none } : SocialPost).imageBase64 = none)) ∧
    (∀ d, jsTruthy p.imagePrompt = true → settledImageData imgCall = some d →
       _generateInitialSocialPost (Settled.fulfilled ⟨p :: rest⟩) imgCall =
         Except.ok ⟨{ p with imagePrompt := none, imageBase64 := some d } :: rest⟩ ∧
       generateNewSocialMediaPost (Settled.fulfilled p) imgCall =
         Except.ok { p with imagePrompt := none, imageBase64 := some d }) := by
  constructor
  · intro hp himg
    refine ⟨?_, ?_, fun h => h⟩
    · simp [_generateInitialSocialPost, hp, attachIllustration, himg]
    · simp [generateNewSocialMediaPost, hp, attachIllustration, himg]
  · intro d hp himg
    constructor
    · simp [_generateInitialSocialPost, hp, attachIllustration, himg]
    · simp [generateNewSocialMediaPost, hp, attachIllustration, himg]

/-- C7 witness: a concrete post whose illustration call rejects is returned
with its text fields intact and no imageBase64. -/
theorem social_post_best_effort_image_witness :
    _generateInitialSocialPost (Settled.fulfilled ⟨[samplePost]⟩)
        (Settled.rejected "image model down") =
      Except.ok ⟨[{ samplePost with imagePrompt := none }]⟩ ∧
    generateNewSocialMediaPost (Settled.fulfilled samplePost)
        (Settled.rejected "image model down") =
      Except.ok { samplePost with imagePrompt := none } := by
  have h := (social_post_best_effort_image samplePost []
    (Settled.rejected "image model down")).1 rfl rfl
  exact ⟨h.1, h.2.1⟩

/-- C10 counterexample: a parsed initial post whose imagePrompt is the empty
string is returned with the imagePrompt field still present: the deletion is
guarded by the same truthiness test as the illustration attempt, so a falsy
imagePrompt survives to the caller. -/
theorem initialSocialPost_imagePrompt_leak :
    _generateInitialSocialPost (Settled.fulfilled ⟨[emptyPromptPost]⟩)
        (Settled.rejected "image model down") =
      Except.ok ⟨[emptyPromptPost]⟩ ∧
    emptyPromptPost.imagePrompt = some "" ∧
    (some "" : Option String) ≠ none :=
  ⟨rfl, rfl, by simp⟩

/-- C10 amended: generateNewSocialMediaPost and generateTaglishSocialMediaPost
always return the post with imagePrompt removed; _generateInitialSocialPost
removes it from the first post whenever that post's imagePrompt is truthy
(present and non-empty), the only case in which an illustration is attempted,
while a falsy imagePrompt is passed through unchanged. -/
theorem imagePrompt_removal_amended (p : SocialPost) (rest : List SocialPost)
    (imgCall : Settled ImageResp) :
    (jsTruthy p.imagePrompt = true →
       ∃ q rest2, _generateInitialSocialPost (Settled.fulfilled ⟨p :: rest⟩) imgCall =
           Except.ok ⟨q :: rest2⟩ ∧ q.imagePrompt = none ∧ rest2 = rest) ∧
    (jsTruthy p.imagePrompt = false →
       _generateInitialSocialPost (Settled.fulfilled ⟨p :: rest⟩) imgCall =
         Except.ok ⟨p :: rest⟩) ∧
    (∀ q, generateNewSocialMediaPost (Settled.fulfilled p) imgCall = Except.ok q →
       q.imagePrompt = none) ∧
    (∀ q, generateTaglishSocialMediaPost (Settled.fulfilled p) imgCall = Except.ok q →
       q.imagePrompt = none) := by
  refine ⟨?_, ?_, ?_, ?_⟩
  · intro hp
    refine ⟨{ attachIllustration imgCall p with imagePrompt := none }, rest, ?_, rfl, rfl⟩
    simp [_generateInitialSocialPost, hp]
  · intro hp
    simp [_generateInitialSocialPost, hp]
  · intro q hq
    simp only [generateNewSocialMediaPost, Except.ok.injEq] at hq
    rw [← hq]
  · intro q hq
    simp only [generateTaglishSocialMediaPost, Except.ok.injEq] at hq
    rw [← hq]

/-- C10 amended witness: a concrete truthy imagePrompt is removed by the
initial path, and the standalone post generators remove it as well. -/
theorem imagePrompt_removal_amended_witness :
    (∃ q rest2, _generateInitialSocialPost (Settled.fulfilled ⟨[samplePost]⟩)
        (Settled.rejected "down") =
      Except.ok ⟨q :: rest2⟩ ∧ q.imagePrompt = none ∧ rest2 = []) ∧
    (∀ q, generateTaglishSocialMediaPost (Settled.fulfilled samplePost)
        (Settled.rejected "down") = Except.ok q → q.imagePrompt = none) :=
  ⟨(imagePrompt_removal_amended samplePost [] (Settled.rejected "down")).1 rfl,
    (imagePrompt_removal_amended samplePost [] (Settled.rejected "down")).2.2.2⟩

theorem finalize_ok (r c : GeneratedContent) (h : finalize r = Except.ok c) :
    c = r ∧ r.noKeys = false := by
  unfold finalize at h
  split at h
  · exact absurd h (by simp)
  · cases h
    rename_i hk
    exact ⟨rfl, by simpa using hk⟩

theorem listingPhase_fields (env : Env) (opts : GenOptions) (r : GeneratedContent)
    (h : listingPhase env opts = Except.ok r) :
    r.socialMediaPost = none ∧ r.productImageBase64 = none ∧ r.usageImagesBase64 = none ∧
    (opts.productListing = false → r.productTitle = none ∧ r.productDescription = none) := by
  unfold listingPhase at h
  cases hpl : opts.productListing with
  | false =>
    rw [hpl] at h
    simp only [Bool.false_eq_true, if_false, Except.ok.injEq] at h
    subst h
    exact ⟨rfl, rfl, rfl, fun _ => ⟨rfl, rfl⟩⟩
  | true =>
    rw [hpl] at h
    simp only [if_true] at h
    cases hl : env.listing with
    | rejected e => rw [hl] at h; exact absurd h (by simp)
    | fulfilled listing =>
      rw [hl] at h
      simp only [Except.ok.injEq] at h
      subst h
      exact ⟨rfl, rfl, rfl, fun hc => by simp at hc⟩

theorem textPhase_fields (env : Env) (opts : GenOptions) (r : GeneratedContent)
    (h : textPhase env opts = Except.ok r) :
    r.productImageBase64 = none ∧ r.usageImagesBase64 = none ∧
    (opts.productListing = false → r.productTitle = none ∧ r.productDescription = none) ∧
    (opts.socialMedia = false → r.socialMediaPost = none) := by
  unfold textPhase at h
  cases hl : listingPhase env opts with
  | error e => rw [hl] at h; exact absurd h (by simp)
  | ok r1 =>
    rw [hl] at h
    obtain ⟨h1, h2, h3, h4⟩ := listingPhase_fields env opts r1 hl
    cases hsm : opts.socialMedia with
    | false =>
      rw [hsm] at h
      simp only [Bool.false_eq_true, if_false, Except.ok.injEq] at h
      subst h
      exact ⟨h2, h3, h4, fun _ => h1⟩
    | true =>
      rw [hsm] at h
      simp only [if_true] at h
      cases hsp : _generateInitialSocialPost env.socialText env.socialImage with
      | error e => rw [hsp] at h; exact absurd h (by simp)
      | ok content =>
        rw [hsp] at h
        simp only [Except.ok.injEq] at h
        subst h
        exact ⟨h2, h3, h4, fun hc => by simp at hc⟩

/-- C4: with no option selected the orchestrator fails with the generic
no-content error for every environment (so without consulting any call
outcome), and a successful run never returns an aggregate with no key. -/
theorem nothing_generated_policy (env : Env) (pt : String) (opts : GenOptions) :
    (opts = { productListing := false, socialMedia := false, images := false } →
       generateProductContent env pt opts = Except.error noContentError) ∧
    (∀ c, generateProductContent env pt opts = Except.ok c → c.noKeys = false) := by
  constructor
  · rintro rfl
    rfl
  · intro c hc
    unfold generateProductContent at hc
    cases ht : textPhase env opts with
    | error e => rw [ht] at hc; exact absurd hc (by simp)
    | ok r0 =>
      rw [ht] at hc
      cases him : opts.images with
      | false =>
        rw [him] at hc
        simp only [Bool.false_eq_true, if_false] at hc
        obtain ⟨hce, hnk⟩ := finalize_ok r0 c hc
        rw [hce]
        exact hnk
      | true =>
        rw [him] at hc
        simp only [if_true] at hc
        cases hmi : env.mainImage with
        | rejected e => rw [hmi] at hc; exact absurd hc (by simp)
        | fulfilled mainResp =>
          rw [hmi] at hc
          dsimp only at hc
          cases hus : _generateUsageImages env.usageApi
              (_generateSceneDescriptions env.sceneFetch 4) with
          | error e => rw [hus] at hc; exact absurd hc (by simp)
          | ok us =>
            rw [hus] at hc
            dsimp only at hc
            cases hfi : findInline mainResp with
            | none => rw [hfi] at hc; exact absurd hc (by simp)
            | some d =>
              rw [hfi] at hc
              dsimp only at hc
              obtain ⟨hce, hnk⟩ := finalize_ok (withImages r0 d us) c hc
              rw [hce]
              exact hnk

/-- C4 witness: the all-false option set yields the no-content error in the
sample environment. -/
theorem nothing_generated_policy_witness :
    generateProductContent sampleEnv "digital planner"
        { productListing := false, socialMedia := false, images := false } =
      Except.error noContentError :=
  (nothing_generated_policy sampleEnv "digital planner"
    { productListing := false, socialMedia := false, images := false }).1 rfl

/-- C3: when images are requested and the studio edit fulfills with no image
data the whole call fails, whatever the other outcomes; when additionally
the text phase and the usage batch succeed the error is exactly the
edited-image error; and a successful run with images requested always
carries the image payload of the fulfilled studio response. -/
theorem studio_image_required (env : Env) (pt : String) (opts : GenOptions) :
    (∀ resp, opts.images = true → env.mainImage = Settled.fulfilled resp →
       findInline resp = none →
       ∃ e, generateProductContent env pt opts = Except.error e) ∧
    (∀ resp r0 us, opts.images = true → textPhase env opts = Except.ok r0 →
       env.mainImage = Settled.fulfilled resp → findInline resp = none →
       _generateUsageImages env.usageApi (_generateSceneDescriptions env.sceneFetch 4) =
         Except.ok us →
       generateProductContent env pt opts = Except.error editedImageError) ∧
    (∀ c, opts.images = true → generateProductContent env pt opts = Except.ok c →
       ∃ resp d, env.mainImage = Settled.fulfilled resp ∧ findInline resp = some d ∧
         c.productImageBase64 = some d) := by
  refine ⟨?_, ?_, ?_⟩
  · intro resp him hmi hfi
    unfold generateProductContent
    cases ht : textPhase env opts with
    | error e =>
      exact ⟨e, rfl⟩
    | ok r0 =>
      cases hus : _generateUsageImages env.usageApi
          (_generateSceneDescriptions env.sceneFetch 4) with
      | error e =>
        refine ⟨e, ?_⟩
        simp [him, hmi, hus]
      | ok us =>
        refine ⟨editedImageError, ?_⟩
        simp [him, hmi, hus, hfi]
  · intro resp r0 us him ht hmi hfi hus
    unfold generateProductContent
    rw [ht]
    simp [him, hmi, hus, hfi]
  · intro c him hc
    unfold generateProductContent at hc
    cases ht : textPhase env opts with
    | error e => rw [ht] at hc; exact absurd hc (by simp)
    | ok r0 =>
      rw [ht, him] at hc
      simp only [if_true] at hc
      cases hmi : env.mainImage with
      | rejected e => rw [hmi] at hc; exact absurd hc (by simp)
      | fulfilled resp =>
        rw [hmi] at hc
        dsimp only at hc
        cases hus : _generateUsageImages env.usageApi
            (_generateSceneDescriptions env.sceneFetch 4) with
        | error e => rw [hus] at hc; exact absurd hc (by simp)
        | ok us =>
          rw [hus] at hc
          dsimp only at hc
          cases hfi : findInline resp with
          | none => rw [hfi] at hc; exact absurd hc (by simp)
          | some d =>
            rw [hfi] at hc
            dsimp only at hc
            obtain ⟨hce, _⟩ := finalize_ok (withImages r0 d us) c hc
            exact ⟨resp, d, rfl, hfi, by rw [hce]; rfl⟩

/-- C3 witness: in the sample environment the studio edit fulfills with no
parts while all four usage requests succeed, and the call fails with the
edited-image error. -/
theorem studio_image_required_witness :
    generateProductContent sampleEnv "digital planner"
        { productListing := false, socialMedia := false, images := true } =
      Except.error editedImageError :=
  (studio_image_required sampleEnv "digital planner"
    { productListing := false, socialMedia := false, images := true }).2.1
    (some []) {} ["IMG", "IMG", "IMG", "IMG"] rfl rfl rfl rfl rfl

/-- C5: a field of a successful aggregate is populated only when its option
flag was set: with the listing flag off, title and description are absent;
with the social flag off, the post list is absent; with the images flag off,
both image fields are absent; and the concrete listing-only run with a
fulfilled listing call returns exactly title and description, everything
else absent. -/
theorem fields_follow_options (env : Env) (pt : String) (opts : GenOptions) :
    (∀ c, generateProductContent env pt opts = Except.ok c →
       (opts.productListing = false → c.productTitle = none ∧ c.productDescription = none) ∧
       (opts.socialMedia = false → c.socialMediaPost = none) ∧
       (opts.images = false → c.productImageBase64 = none ∧ c.usageImagesBase64 = none)) ∧
    (∀ L, opts = { productListing := true, socialMedia := false, images := false } →
       env.listing = Settled.fulfilled L →
       generateProductContent env pt opts =
         Except.ok { productTitle := some L.productTitle,
                     productDescription := some L.productDescription }) := by
  constructor
  · intro c hc
    unfold generateProductContent at hc
    cases ht : textPhase env opts with
    | error e => rw [ht] at hc; exact absurd hc (by simp)
    | ok r0 =>
      rw [ht] at hc
      obtain ⟨hpi, hui, hpl, hsm⟩ := textPhase_fields env opts r0 ht
      cases him : opts.images with
      | false =>
        rw [him] at hc
        simp only [Bool.false_eq_true, if_false] at hc
        obtain ⟨hce, _⟩ := finalize_ok r0 c hc
        subst hce
        exact ⟨hpl, hsm, fun _ => ⟨hpi, hui⟩⟩
      | true =>
        rw [him] at hc
        simp only [if_true] at hc
        cases hmi : env.mainImage with
        | rejected e => rw [hmi] at hc; exact absurd hc (by simp)
        | fulfilled mainResp =>
          rw [hmi] at hc
          dsimp only at hc
          cases hus : _generateUsageImages env.usageApi
              (_generateSceneDescriptions env.sceneFetch 4) with
          | error e => rw [hus] at hc; exact absurd hc (by simp)
          | ok us =>
            rw [hus] at hc
            dsimp only at hc
            cases hfi : findInline mainResp with
            | none => rw [hfi] at hc; exact absurd hc (by simp)
            | some d =>
              rw [hfi] at hc
              dsimp only at hc
              obtain ⟨hce, _⟩ := finalize_ok (withImages r0 d us) c hc
              subst hce
              refine ⟨?_, ?_, fun hcon => by simp [him] at hcon⟩
              · intro h
                exact ⟨(hpl h).1, (hpl h).2⟩
              · intro h
                exact hsm h
  · intro L hopts hl
    subst hopts
    unfold generateProductContent textPhase listingPhase
    rw [hl]
    rfl

/-- C5 witness: the listing-only run in the sample environment returns
exactly the parsed title and description. -/
theorem fields_follow_options_witness :
    generateProductContent sampleEnv "digital planner"
        { productListing := true, socialMedia := false, images := false } =
      Except.ok { productTitle := some "T", productDescription := some sampleDescription } :=
  (fields_follow_options sampleEnv "digital planner"
    { productListing := true, socialMedia := false, images := false }).2
    sampleListing rfl rfl

/-- C8: each generate-more state update appends to the end of the existing
sequence (previous entries keep their indices) and leaves every other field
of the aggregate unchanged; no entry is reordered or dropped. -/
theorem generate_more_append_stable (prev : GeneratedContent) (newImages : List String)
    (newPost tagPost : SocialPost) :
    (handleGenerateMoreImagesUpdate prev newImages).usageImagesBase64 =
      some (prev.usageImagesBase64.getD [] ++ newImages) ∧
    (handleGenerateNewSocialPostUpdate prev newPost).socialMediaPost =
      some (prev.socialMediaPost.getD [] ++ [newPost]) ∧
    (handleGenerateTaglishPostUpdate prev tagPost).socialMediaPost =
      some (prev.socialMediaPost.getD [] ++ [tagPost]) ∧
    (∀ i, i < (prev.usageImagesBase64.getD []).length →
       (prev.usageImagesBase64.getD [] ++ newImages)[i]? =
         (prev.usageImagesBase64.getD [])[i]?) ∧
    (∀ i, i < (prev.socialMediaPost.getD []).length →
       (prev.socialMediaPost.getD [] ++ [newPost])[i]? =
         (prev.socialMediaPost.getD [])[i]?) ∧
    (handleGenerateMoreImagesUpdate prev newImages).productTitle = prev.productTitle ∧
    (handleGenerateMoreImagesUpdate prev newImages).productDescription =
      prev.productDescription ∧
    (handleGenerateMoreImagesUpdate prev newImages).socialMediaPost =
      prev.socialMediaPost ∧
    (handleGenerateMoreImagesUpdate prev newImages).productImageBase64 =
      prev.productImageBase64 ∧
    (handleGenerateNewSocialPostUpdate prev newPost).productTitle = prev.productTitle ∧
    (handleGenerateNewSocialPostUpdate prev newPost).productDescription =
      prev.productDescription ∧
    (handleGenerateNewSocialPostUpdate prev newPost).productImageBase64 =
      prev.productImageBase64 ∧
    (handleGenerateNewSocialPostUpdate prev newPost).usageImagesBase64 =
      prev.usageImagesBase64 ∧
    (handleGenerateTaglishPostUpdate prev tagPost).productTitle = prev.productTitle ∧
    (handleGenerateTaglishPostUpdate prev tagPost).productDescription =
      prev.productDescription ∧
    (handleGenerateTaglishPostUpdate prev tagPost).productImageBase64 =
      prev.productImageBase64 ∧
    (handleGenerateTaglishPostUpdate prev tagPost).usageImagesBase64 =
      prev.usageImagesBase64 := by
  refine ⟨rfl, rfl, rfl, ?_, ?_, rfl, rfl, rfl, rfl, rfl, rfl, rfl, rfl, rfl, rfl, rfl, rfl⟩
  · intro i hi
    exact List.getElem?_append_left hi
  · intro i hi
    exact List.getElem?_append_left hi

/-- C8 witness: appending one image to a one-image aggregate keeps index 0
and yields the two-element list. -/
theorem generate_more_append_stable_witness :
    (handleGenerateMoreImagesUpdate samplePrev ["B"]).usageImagesBase64 =
      some ["A", "B"] ∧
    ((["A"] : List String) ++ ["B"])[0]? = (["A"] : List String)[0]? :=
  ⟨(generate_more_append_stable samplePrev ["B"] samplePost samplePost).1,
    (generate_more_append_stable samplePrev ["B"] samplePost samplePost).2.2.2.1 0
      (by decide)⟩
